import Mathlib

/-!
Shallow embedding of the signal-detection and trade-state engine of
`src/BitkubBot.py`. Prices and amounts are modelled as exact rationals
(`ℚ`); Python `None` becomes `Option`; the external order-placement call
becomes an explicit `OrderResponse` oracle consumed in submission order.
All definitions are translated directly from the source file.
-/

namespace BitkubBot

/-- `calculate_sma` (src/BitkubBot.py lines 99-103): returns `None` when
`len(prices) < period`, else the arithmetic mean of the trailing `period`
elements (`prices[-period:]`, translated for `period ≥ 1` as
`drop (length - period)`). -/
def calculate_sma (prices : List ℚ) (period : ℕ) : Option ℚ :=
  if prices.length < period then none
  else some ((prices.drop (prices.length - period)).sum / period)

/-- `calculate_ema` (lines 105-120): seed is the SMA of the first `period`
elements of the whole input, smoothing factor `2/(period+1)`, then a fold
over the remaining elements. -/
def calculate_ema (prices : List ℚ) (period : ℕ) : Option ℚ :=
  if prices.length < period then none
  else
    let multiplier : ℚ := 2 / (period + 1)
    let seed : ℚ := (prices.take period).sum / period
    some ((prices.drop period).foldl
      (fun ema price => price * multiplier + ema * (1 - multiplier)) seed)

/-- `calculate_wma` (lines 122-131): weights `1..period` paired with the
trailing `period` elements oldest→newest, weighted sum divided by the sum
of the weights. -/
def calculate_wma (prices : List ℚ) (period : ℕ) : Option ℚ :=
  if prices.length < period then none
  else
    let weights : List ℚ := (List.range' 1 period).map (fun w => (w : ℚ))
    let sum_weights : ℚ := weights.sum
    some ((((prices.drop (prices.length - period)).zip weights).map
      (fun pw => pw.1 * pw.2)).sum / sum_weights)

/-- Python's `str.upper()` on ASCII strings, applied character-wise. -/
def py_upper (s : String) : String := ⟨s.data.map Char.toUpper⟩

/-- `calculate_ma` (lines 133-153): dispatch on the upper-cased `ma_type`
string; an unsupported type falls through to the `else` branch, which
prints an error and returns `calculate_sma` as a fallback. -/
def calculate_ma (prices : List ℚ) (period : ℕ) (ma_type : String) : Option ℚ :=
  if py_upper ma_type = "SMA" then calculate_sma prices period
  else if py_upper ma_type = "EMA" then calculate_ema prices period
  else if py_upper ma_type = "WMA" then calculate_wma prices period
  else calculate_sma prices period

/-- The derived bot state strings of `monitor_mas_on_candle_close`
(`"HOLDING"`, `"CASH"`, and the `"UNKNOWN"` initial sentinel, line 613). -/
inductive DerivedBotState where
  | HOLDING
  | CASH
  | UNKNOWN
  deriving DecidableEq, Repr

/-- `last_trade_type` values: the strings `'BUY'`/`'SELL'` or Python
`None` (line 593). -/
inductive TradeType where
  | BUY
  | SELL
  | NONE
  deriving DecidableEq, Repr

/-- `order_execution_type` from config: `'limit'` or `'market'`. -/
inductive ExecType where
  | limit
  | market
  deriving DecidableEq, Repr

/-- The trading configuration fields consumed by the signal/order logic
(lines 553-562). -/
structure BotConfig where
  position_size_thb : ℚ
  max_slippage_percentage : ℚ
  order_execution_type : ExecType
  deriving DecidableEq, Repr

/-- The loop-local trading state `bot_managed_holding` /
`last_trade_type` (lines 592-593). -/
structure TradeState where
  bot_managed_holding : ℚ
  last_trade_type : TradeType
  deriving DecidableEq, Repr

/-- The response of a Bitkub order call as consumed by the loop:
`success` models `response.get('error') == 0`, `recAmount` models
`float(response['result'].get('rec', 0.0))`. -/
structure OrderResponse where
  success : Bool
  recAmount : ℚ
  deriving DecidableEq, Repr

/-- The Bitkub ticker fields used by the loop (lines 731-732). -/
structure MarketData where
  lowestAsk : ℚ
  highestBid : ℚ
  deriving DecidableEq, Repr

inductive OrderSide where
  | buy
  | sell
  deriving DecidableEq, Repr

/-- `signal_type` argument of the order-placement helpers. -/
inductive SignalOrigin where
  | primary
  | backup
  deriving DecidableEq, Repr

/-- One order-placement attempt: direction, signal source, submitted
amount (THB for buys, coin for sells) and the optional limit rate. -/
structure OrderAttempt where
  side : OrderSide
  origin : SignalOrigin
  amount : ℚ
  rate : Option ℚ
  deriving DecidableEq, Repr

/-- Initial seeding of the trading state (lines 603-611): with
`self_buy_enabled and self_buy_amount_coin > 0` the bot starts holding
the configured amount with `last_trade_type = 'BUY'`; otherwise holding
`0` with `last_trade_type = 'SELL'`. -/
def initial_trade_state (self_buy_enabled : Bool) (self_buy_amount_coin : ℚ) :
    TradeState :=
  if self_buy_enabled = true ∧ self_buy_amount_coin > 0 then
    { bot_managed_holding := self_buy_amount_coin, last_trade_type := .BUY }
  else
    { bot_managed_holding := 0, last_trade_type := .SELL }

/-- The buy limit rate (lines 740-741 and 795-796): in limit mode
`ask * (1 + max_slippage_percentage / 100)`, in market mode no rate. -/
def buy_order_rate (cfg : BotConfig) (ask : ℚ) : Option ℚ :=
  if cfg.order_execution_type = .limit then
    some (ask * (1 + cfg.max_slippage_percentage / 100))
  else none

/-- The sell limit rate (lines 765-766 and 814-815): in limit mode
`bid * (1 - max_slippage_percentage / 100)`, in market mode no rate. -/
def sell_order_rate (cfg : BotConfig) (bid : ℚ) : Option ℚ :=
  if cfg.order_execution_type = .limit then
    some (bid * (1 - cfg.max_slippage_percentage / 100))
  else none

/-- Buy-response bookkeeping (lines 748-755, 802-808): on success add the
received coin to the managed holding and set `last_trade_type = 'BUY'`;
on failure leave the state untouched. -/
def apply_buy_response (st : TradeState) (resp : OrderResponse) : TradeState :=
  if resp.success = true then
    { bot_managed_holding := st.bot_managed_holding + resp.recAmount,
      last_trade_type := .BUY }
  else st

/-- Sell-response bookkeeping (lines 773-779, 821-826): on success the
whole managed holding was sold, so it becomes `0` and
`last_trade_type = 'SELL'`; on failure leave the state untouched. -/
def apply_sell_response (st : TradeState) (resp : OrderResponse) : TradeState :=
  if resp.success = true then
    { bot_managed_holding := 0, last_trade_type := .SELL }
  else st

/-- Derived bot state from the current confirmed MAs (lines 717-721):
`"HOLDING"` iff `fast_ma_current > slow_ma_current`, else `"CASH"`. -/
def derived_state_of (fast_ma_current slow_ma_current : ℚ) : DerivedBotState :=
  if fast_ma_current > slow_ma_current then .HOLDING else .CASH

/-- Primary buy crossover test (line 735). -/
def primary_buy_signal (fc sc fp sp : ℚ) : Prop := fc > sc ∧ fp ≤ sp

/-- Primary sell crossover test (line 760). -/
def primary_sell_signal (fc sc fp sp : ℚ) : Prop := fc < sc ∧ fp ≥ sp

instance (fc sc fp sp : ℚ) : Decidable (primary_buy_signal fc sc fp sp) :=
  inferInstanceAs (Decidable (_ ∧ _))

instance (fc sc fp sp : ℚ) : Decidable (primary_sell_signal fc sc fp sp) :=
  inferInstanceAs (Decidable (_ ∧ _))

/-- The primary-signal branch (lines 734-783): on a buy crossover, place
a buy sized `position_size_thb` unless `last_trade_type == 'BUY' and
bot_managed_holding != 0.0`; on a sell crossover, place a sell of the
entire `bot_managed_holding` if `bot_managed_holding > 0 and
last_trade_type != 'SELL'`. Returns the updated state and the attempts
made. -/
def primary_signal_phase (cfg : BotConfig) (fc sc fp sp ask bid : ℚ)
    (st : TradeState) (resp : OrderResponse) :
    TradeState × List OrderAttempt :=
  if primary_buy_signal fc sc fp sp then
    if st.last_trade_type ≠ .BUY ∨ st.bot_managed_holding = 0 then
      (apply_buy_response st resp,
       [{ side := .buy, origin := .primary, amount := cfg.position_size_thb,
          rate := buy_order_rate cfg ask }])
    else (st, [])
  else if primary_sell_signal fc sc fp sp then
    if st.bot_managed_holding > 0 ∧ st.last_trade_type ≠ .SELL then
      (apply_sell_response st resp,
       [{ side := .sell, origin := .primary, amount := st.bot_managed_holding,
          rate := sell_order_rate cfg bid }])
    else (st, [])
  else (st, [])

/-- The backup-signal branch (lines 785-826), run unconditionally after
the primary branch on the state the primary branch left behind: backup
buy if `derived_bot_state == "HOLDING" and (last_trade_type != 'BUY' or
bot_managed_holding == 0.0)`; else backup sell if `derived_bot_state ==
"CASH" and bot_managed_holding > 0 and last_trade_type != 'SELL'`. The
previous derived state is not consulted. -/
def backup_signal_phase (cfg : BotConfig) (derived : DerivedBotState)
    (ask bid : ℚ) (st : TradeState) (resp : OrderResponse) :
    TradeState × List OrderAttempt :=
  if derived = .HOLDING ∧ (st.last_trade_type ≠ .BUY ∨ st.bot_managed_holding = 0) then
    (apply_buy_response st resp,
     [{ side := .buy, origin := .backup, amount := cfg.position_size_thb,
        rate := buy_order_rate cfg ask }])
  else if derived = .CASH ∧ st.bot_managed_holding > 0 ∧ st.last_trade_type ≠ .SELL then
    (apply_sell_response st resp,
     [{ side := .sell, origin := .backup, amount := st.bot_managed_holding,
        rate := sell_order_rate cfg bid }])
  else (st, [])

/-- Per-cycle monitor state: the trading state plus
`previous_derived_bot_state` (line 613). -/
structure MonitorState where
  trade : TradeState
  previous_derived_bot_state : DerivedBotState
  deriving DecidableEq, Repr

/-- One iteration of the decision part of the monitoring loop (lines
711-829), given the four confirmed MA values, the Bitkub ticker data
(`none` models a failed quote fetch, whose `continue` at line 729 skips
all trading and the previous-state update), and an oracle `resp` giving
the response to the n-th order submitted this cycle. Returns the new
monitor state and the order attempts made. -/
def cycle_step (cfg : BotConfig)
    (fast_ma_current slow_ma_current fast_ma_previous slow_ma_previous : Option ℚ)
    (market : Option MarketData) (resp : ℕ → OrderResponse)
    (ms : MonitorState) : MonitorState × List OrderAttempt :=
  match fast_ma_current, slow_ma_current, fast_ma_previous, slow_ma_previous, market with
  | some fc, some sc, some fp, some sp, some md =>
      let p := primary_signal_phase cfg fc sc fp sp md.lowestAsk md.highestBid
                 ms.trade (resp 0)
      let b := backup_signal_phase cfg (derived_state_of fc sc)
                 md.lowestAsk md.highestBid p.1 (resp p.2.length)
      ({ trade := b.1, previous_derived_bot_state := derived_state_of fc sc },
       p.2 ++ b.2)
  | _, _, _, _, _ => (ms, [])

/-- Claim C4: the derived state is HOLDING iff `curFast > curSlow` and CASH
otherwise; a primary BUY fires iff `curFast > curSlow ∧ prevFast ≤ prevSlow`;
a primary SELL fires iff `curFast < curSlow ∧ prevFast ≥ prevSlow`; with
equality on both windows no primary signal fires and the state is CASH. -/
theorem C4_crossover_classification (fc sc fp sp : ℚ) :
    (derived_state_of fc sc = .HOLDING ↔ fc > sc)
    ∧ (derived_state_of fc sc = .CASH ↔ ¬fc > sc)
    ∧ (primary_buy_signal fc sc fp sp ↔ fc > sc ∧ fp ≤ sp)
    ∧ (primary_sell_signal fc sc fp sp ↔ fc < sc ∧ fp ≥ sp)
    ∧ (fc = sc ∧ fp = sp →
        ¬primary_buy_signal fc sc fp sp ∧ ¬primary_sell_signal fc sc fp sp
        ∧ derived_state_of fc sc = .CASH) := by
  refine ⟨?_, ?_, Iff.rfl, Iff.rfl, ?_⟩
  · unfold derived_state_of; split_ifs with h <;> simp [h]
  · unfold derived_state_of; split_ifs with h <;> simp [h]
  · rintro ⟨h1, h2⟩
    subst h1; subst h2
    refine ⟨?_, ?_, ?_⟩
    · rintro ⟨hlt, -⟩; exact lt_irrefl _ hlt
    · rintro ⟨hlt, -⟩; exact lt_irrefl _ hlt
    · simp [derived_state_of]

theorem C4_witness :
    (derived_state_of 11 10 = .HOLDING ↔ (11 : ℚ) > 10)
    ∧ (¬primary_buy_signal 1 1 2 2 ∧ ¬primary_sell_signal 1 1 2 2
        ∧ derived_state_of 1 1 = .CASH) :=
  ⟨(C4_crossover_classification 11 10 9 10).1,
   (C4_crossover_classification 1 1 2 2).2.2.2.2 ⟨rfl, rfl⟩⟩

/-- Claim C5: in LIMIT mode the buy limit rate is
`ask * (1 + slippagePct/100)` and the sell limit rate is
`bid * (1 - slippagePct/100)` (in particular `102` and `98` for price
`100` and slippage `2`); in MARKET mode no limit rate is computed. -/
theorem C5_slippage_pricing (cfg : BotConfig) (ask bid : ℚ) :
    (cfg.order_execution_type = .limit →
       buy_order_rate cfg ask = some (ask * (1 + cfg.max_slippage_percentage / 100))
       ∧ sell_order_rate cfg bid = some (bid * (1 - cfg.max_slippage_percentage / 100)))
    ∧ (cfg.order_execution_type = .market →
       buy_order_rate cfg ask = none ∧ sell_order_rate cfg bid = none)
    ∧ buy_order_rate ⟨1000, 2, .limit⟩ 100 = some 102
    ∧ sell_order_rate ⟨1000, 2, .limit⟩ 100 = some 98 := by
  refine ⟨fun h => ?_, fun h => ?_, ?_, ?_⟩
  · simp [buy_order_rate, sell_order_rate, h]
  · simp [buy_order_rate, sell_order_rate, h]
  · simp [buy_order_rate]; norm_num
  · simp [sell_order_rate]; norm_num

theorem C5_witness :
    (BotConfig.mk 1000 2 .limit).order_execution_type = .limit
    ∧ buy_order_rate ⟨1000, 2, .limit⟩ 100 = some (100 * (1 + 2 / 100))
    ∧ sell_order_rate ⟨1000, 2, .limit⟩ 100 = some (100 * (1 - 2 / 100)) :=
  ⟨rfl, ((C5_slippage_pricing ⟨1000, 2, .limit⟩ 100 100).1 rfl).1,
   ((C5_slippage_pricing ⟨1000, 2, .limit⟩ 100 100).1 rfl).2⟩

/-- Claim C6: for every supported MA kind, period `p ≥ 1` and price list
shorter than `p`, the MA computation returns `none` (the "insufficient"
value), never a number; the Lean functions are total, so no exception is
possible. -/
theorem C6_insufficient_data (prices : List ℚ) (p : ℕ) (_hp : 1 ≤ p)
    (hlen : prices.length < p) :
    calculate_sma prices p = none ∧ calculate_ema prices p = none
    ∧ calculate_wma prices p = none
    ∧ calculate_ma prices p "SMA" = none ∧ calculate_ma prices p "EMA" = none
    ∧ calculate_ma prices p "WMA" = none := by
  have hs : calculate_sma prices p = none := by simp [calculate_sma, hlen]
  have he : calculate_ema prices p = none := by simp [calculate_ema, hlen]
  have hw : calculate_wma prices p = none := by simp [calculate_wma, hlen]
  have d1 : py_upper "SMA" = "SMA" := by decide
  have d2 : py_upper "EMA" ≠ "SMA" := by decide
  have d3 : py_upper "EMA" = "EMA" := by decide
  have d4 : py_upper "WMA" ≠ "SMA" := by decide
  have d5 : py_upper "WMA" ≠ "EMA" := by decide
  have d6 : py_upper "WMA" = "WMA" := by decide
  refine ⟨hs, he, hw, ?_, ?_, ?_⟩ <;>
    simp [calculate_ma, d1, d2, d3, d4, d5, d6, hs, he, hw]

theorem C6_witness :
    1 ≤ 2 ∧ ([(1 : ℚ)]).length < 2
    ∧ (calculate_sma [1] 2 = none ∧ calculate_ema [1] 2 = none
       ∧ calculate_wma [1] 2 = none
       ∧ calculate_ma [1] 2 "SMA" = none ∧ calculate_ma [1] 2 "EMA" = none
       ∧ calculate_ma [1] 2 "WMA" = none) :=
  ⟨by norm_num, by norm_num,
   C6_insufficient_data [1] 2 (by norm_num) (by norm_num)⟩

/-- Claim C7, counterexample: the per-call dispatch `calculate_ma` does
compute a result under the unsupported kind `"FOO"` — it silently falls
back to SMA (src/BitkubBot.py lines 151-153) instead of the claimed
startup-time configuration failure. -/
theorem C7_counterexample :
    py_upper "FOO" ≠ "SMA" ∧ py_upper "FOO" ≠ "EMA" ∧ py_upper "FOO" ≠ "WMA"
    ∧ calculate_ma [1, 3] 2 "FOO" = some 2 := by
  have h1 : py_upper "FOO" ≠ "SMA" := by decide
  have h2 : py_upper "FOO" ≠ "EMA" := by decide
  have h3 : py_upper "FOO" ≠ "WMA" := by decide
  refine ⟨h1, h2, h3, ?_⟩
  simp [calculate_ma, calculate_sma, h1, h2, h3]
  norm_num

/-- Claim C7 as amended: an unsupported MA kind is not rejected before the
loop; the per-call dispatch `calculate_ma` substitutes the SMA of the same
window as a fallback for every kind other than SMA/EMA/WMA. -/
theorem C7_amended_fallback (prices : List ℚ) (p : ℕ) (t : String)
    (h1 : py_upper t ≠ "SMA") (h2 : py_upper t ≠ "EMA")
    (h3 : py_upper t ≠ "WMA") :
    calculate_ma prices p t = calculate_sma prices p := by
  simp [calculate_ma, h1, h2, h3]

theorem C7_witness :
    (py_upper "XYZ" ≠ "SMA" ∧ py_upper "XYZ" ≠ "EMA" ∧ py_upper "XYZ" ≠ "WMA")
    ∧ calculate_ma [1, 3] 2 "XYZ" = calculate_sma [1, 3] 2 :=
  ⟨⟨by decide, by decide, by decide⟩,
   C7_amended_fallback [1, 3] 2 "XYZ" (by decide) (by decide) (by decide)⟩

/-- Claim C8: whenever the drift/backup check runs (all four MA values
and the quote are present), `previous_derived_bot_state` is overwritten
with the newly derived state, for every order-response outcome; a failed
quote fetch (`market = none`) skips the whole trading block, leaving the
monitor state untouched. -/
theorem C8_previous_state_overwrite (cfg : BotConfig) (fc sc fp sp : ℚ)
    (md : MarketData) (resp : ℕ → OrderResponse) (ms : MonitorState) :
    (cycle_step cfg (some fc) (some sc) (some fp) (some sp) (some md)
        resp ms).1.previous_derived_bot_state = derived_state_of fc sc
    ∧ ∀ (a b c d : Option ℚ),
        cycle_step cfg a b c d none resp ms = (ms, []) := by
  constructor
  · rfl
  · intro a b c d
    rcases a with _ | fc' <;> rcases b with _ | sc' <;>
      rcases c with _ | fp' <;> rcases d with _ | sp' <;> rfl

/-- Claim C10: after the initial seeding, `last_trade_type` is never the
`None` sentinel: with self-buy enabled and a positive amount the bot
starts as `(amount, BUY)`, otherwise as `(0, SELL)`. -/
theorem C10_initial_position (e : Bool) (a : ℚ) :
    (initial_trade_state e a).last_trade_type ≠ .NONE
    ∧ (e = true ∧ 0 < a → initial_trade_state e a =
        { bot_managed_holding := a, last_trade_type := .BUY })
    ∧ (¬(e = true ∧ 0 < a) → initial_trade_state e a =
        { bot_managed_holding := 0, last_trade_type := .SELL }) := by
  unfold initial_trade_state
  split_ifs with h
  · exact ⟨by simp, fun _ => rfl, fun hn => absurd h hn⟩
  · exact ⟨by simp, fun hc => absurd hc h, fun _ => rfl⟩

theorem C10_witness :
    ((true = true ∧ (0 : ℚ) < 7) ∧ initial_trade_state true 7 =
        { bot_managed_holding := 7, last_trade_type := .BUY })
    ∧ (¬(false = true ∧ (0 : ℚ) < 7) ∧ initial_trade_state false 7 =
        { bot_managed_holding := 0, last_trade_type := .SELL }) :=
  ⟨⟨⟨rfl, by norm_num⟩, (C10_initial_position true 7).2.1 ⟨rfl, by norm_num⟩⟩,
   ⟨by simp, (C10_initial_position false 7).2.2 (by simp)⟩⟩

theorem apply_buy_response_fail (st : TradeState) (resp : OrderResponse)
    (h : resp.success = false) : apply_buy_response st resp = st := by
  simp [apply_buy_response, h]

theorem apply_sell_response_fail (st : TradeState) (resp : OrderResponse)
    (h : resp.success = false) : apply_sell_response st resp = st := by
  simp [apply_sell_response, h]

theorem primary_signal_phase_fail_state (cfg : BotConfig)
    (fc sc fp sp ask bid : ℚ) (st : TradeState) (resp : OrderResponse)
    (h : resp.success = false) :
    (primary_signal_phase cfg fc sc fp sp ask bid st resp).1 = st := by
  unfold primary_signal_phase
  split_ifs <;> simp [apply_buy_response, apply_sell_response, h]

theorem backup_signal_phase_fail_state (cfg : BotConfig)
    (derived : DerivedBotState) (ask bid : ℚ) (st : TradeState)
    (resp : OrderResponse) (h : resp.success = false) :
    (backup_signal_phase cfg derived ask bid st resp).1 = st := by
  unfold backup_signal_phase
  split_ifs <;> simp [apply_buy_response, apply_sell_response, h]

theorem cycle_step_fail_trade (cfg : BotConfig) (a b c d : Option ℚ)
    (market : Option MarketData) (resp : ℕ → OrderResponse)
    (ms : MonitorState) (h : ∀ n, (resp n).success = false) :
    (cycle_step cfg a b c d market resp ms).1.trade = ms.trade := by
  rcases a with _ | fc <;> rcases b with _ | sc <;> rcases c with _ | fp <;>
    rcases d with _ | sp <;> rcases market with _ | md <;> try rfl
  simp only [cycle_step]
  rw [backup_signal_phase_fail_state _ _ _ _ _ _ (h _),
      primary_signal_phase_fail_state _ _ _ _ _ _ _ _ _ (h 0)]

/-- Claim C3: the position state is mutated only on a successful order
response: the cycle step leaves `(bot_managed_holding, last_trade_type)`
unchanged whenever every order response fails; a successful buy adds the
received amount and sets `'BUY'`; a successful sell zeroes the holding
and sets `'SELL'`; a failed response leaves the state untouched. -/
theorem C3_update_only_on_success :
    (∀ (cfg : BotConfig) (a b c d : Option ℚ) (market : Option MarketData)
       (resp : ℕ → OrderResponse) (ms : MonitorState),
       (∀ n, (resp n).success = false) →
       (cycle_step cfg a b c d market resp ms).1.trade = ms.trade)
    ∧ (∀ (st : TradeState) (r : OrderResponse), r.success = true →
        apply_buy_response st r =
          { bot_managed_holding := st.bot_managed_holding + r.recAmount,
            last_trade_type := .BUY }
        ∧ apply_sell_response st r =
          { bot_managed_holding := 0, last_trade_type := .SELL })
    ∧ (∀ (st : TradeState) (r : OrderResponse), r.success = false →
        apply_buy_response st r = st ∧ apply_sell_response st r = st) :=
  ⟨fun cfg a b c d market resp ms h =>
     cycle_step_fail_trade cfg a b c d market resp ms h,
   fun st r h => ⟨by simp [apply_buy_response, h], by simp [apply_sell_response, h]⟩,
   fun st r h => ⟨apply_buy_response_fail st r h, apply_sell_response_fail st r h⟩⟩

theorem C3_witness :
    (∀ n : ℕ, ((fun _ : ℕ => OrderResponse.mk false 0) n).success = false)
    ∧ (cycle_step ⟨1000, 0, .market⟩ (some 11) (some 10) (some 9) (some 10)
         (some ⟨100, 99⟩) (fun _ => ⟨false, 0⟩)
         ⟨⟨0, .SELL⟩, .UNKNOWN⟩).1.trade = TradeState.mk 0 .SELL
    ∧ apply_buy_response ⟨0, .SELL⟩ ⟨true, 3⟩ =
        { bot_managed_holding := 0 + 3, last_trade_type := .BUY }
    ∧ apply_sell_response ⟨5, .BUY⟩ ⟨true, 0⟩ =
        { bot_managed_holding := 0, last_trade_type := .SELL } :=
  ⟨fun _ => rfl,
   C3_update_only_on_success.1 ⟨1000, 0, .market⟩ (some 11) (some 10) (some 9)
     (some 10) (some ⟨100, 99⟩) (fun _ => ⟨false, 0⟩) ⟨⟨0, .SELL⟩, .UNKNOWN⟩
     (fun _ => rfl),
   (C3_update_only_on_success.2.1 ⟨0, .SELL⟩ ⟨true, 3⟩ rfl).1,
   (C3_update_only_on_success.2.1 ⟨5, .BUY⟩ ⟨true, 0⟩ rfl).2⟩

theorem trailing_window_append (pre l : List ℚ) (p : ℕ) (hp : p ≤ l.length) :
    (pre ++ l).drop ((pre ++ l).length - p) = l.drop (l.length - p) := by
  rw [List.length_append, Nat.add_sub_assoc hp, List.drop_append]

/-- Claim C9: SMA and WMA depend only on the trailing `p` elements —
prepending arbitrary history does not change them — while EMA does depend
on history before the window: there is a list and a prefix for which the
EMA of the prefixed list differs. -/
theorem C9_window_stability :
    (∀ (p : ℕ) (pre l : List ℚ), 1 ≤ p → p ≤ l.length →
       calculate_sma (pre ++ l) p = calculate_sma l p
       ∧ calculate_wma (pre ++ l) p = calculate_wma l p)
    ∧ (∃ (p : ℕ) (pre l : List ℚ), 1 ≤ p ∧ p ≤ l.length ∧
        calculate_ema (pre ++ l) p ≠ calculate_ema l p) := by
  constructor
  · intro p pre l hp hlen
    have hkey := trailing_window_append pre l p hlen
    have h1 : ¬((pre ++ l).length < p) := by rw [List.length_append]; omega
    have h2 : ¬(l.length < p) := by omega
    exact ⟨by simp only [calculate_sma, if_neg h1, if_neg h2, hkey],
           by simp only [calculate_wma, if_neg h1, if_neg h2, hkey]⟩
  · refine ⟨2, [10, 0], [1, 1], by norm_num, by norm_num, ?_⟩
    have e1 : calculate_ema ([10, 0] ++ [1, 1]) 2 = some (13 / 9) := by
      simp [calculate_ema]; norm_num
    have e2 : calculate_ema [1, 1] 2 = some 1 := by simp [calculate_ema]
    rw [e1, e2]
    simp only [ne_eq, Option.some.injEq]
    norm_num

theorem C9_witness :
    1 ≤ 2 ∧ 2 ≤ ([1, 2] : List ℚ).length
    ∧ (calculate_sma ([5] ++ [1, 2]) 2 = calculate_sma [1, 2] 2
       ∧ calculate_wma ([5] ++ [1, 2]) 2 = calculate_wma [1, 2] 2) :=
  ⟨by norm_num, by norm_num,
   C9_window_stability.1 2 [5] [1, 2] (by norm_num) (by norm_num)⟩

/-- Claim C2: over position states with a non-negative managed holding
(the data-model invariant), a primary BUY signal produces a buy attempt
sized `position_size_thb` unless `last_trade_type = BUY` and the holding
is strictly positive; a primary SELL signal produces a sell attempt sized
at the entire holding unless the holding is `≤ 0` or
`last_trade_type = SELL`; two consecutive BUY signals with a positive
holding after the first make exactly one attempt. -/
theorem C2_trade_decision (cfg : BotConfig) (fc sc fp sp ask bid : ℚ)
    (st : TradeState) (resp : OrderResponse)
    (hnn : 0 ≤ st.bot_managed_holding) :
    (primary_buy_signal fc sc fp sp →
      ((st.last_trade_type = .BUY ∧ 0 < st.bot_managed_holding →
          (primary_signal_phase cfg fc sc fp sp ask bid st resp).2 = [])
       ∧ (¬(st.last_trade_type = .BUY ∧ 0 < st.bot_managed_holding) →
          (primary_signal_phase cfg fc sc fp sp ask bid st resp).2 =
            [{ side := .buy, origin := .primary,
               amount := cfg.position_size_thb,
               rate := buy_order_rate cfg ask }])))
    ∧ (primary_sell_signal fc sc fp sp →
      ((st.bot_managed_holding ≤ 0 ∨ st.last_trade_type = .SELL →
          (primary_signal_phase cfg fc sc fp sp ask bid st resp).2 = [])
       ∧ (¬(st.bot_managed_holding ≤ 0 ∨ st.last_trade_type = .SELL) →
          (primary_signal_phase cfg fc sc fp sp ask bid st resp).2 =
            [{ side := .sell, origin := .primary,
               amount := st.bot_managed_holding,
               rate := sell_order_rate cfg bid }])))
    ∧ (primary_buy_signal fc sc fp sp →
       ¬(st.last_trade_type = .BUY ∧ 0 < st.bot_managed_holding) →
       resp.success = true →
       0 < st.bot_managed_holding + resp.recAmount →
       (primary_signal_phase cfg fc sc fp sp ask bid st resp).2.length = 1
       ∧ ∀ (fc2 sc2 fp2 sp2 ask2 bid2 : ℚ) (resp2 : OrderResponse),
           primary_buy_signal fc2 sc2 fp2 sp2 →
           (primary_signal_phase cfg fc2 sc2 fp2 sp2 ask2 bid2
              (primary_signal_phase cfg fc sc fp sp ask bid st resp).1
              resp2).2 = []) := by
  have hconv : ¬(st.last_trade_type = .BUY ∧ 0 < st.bot_managed_holding) ↔
      (st.last_trade_type ≠ .BUY ∨ st.bot_managed_holding = 0) := by
    constructor
    · intro h
      by_cases hb : st.last_trade_type = .BUY
      · exact Or.inr (le_antisymm (not_lt.mp (not_and.mp h hb)) hnn)
      · exact Or.inl hb
    · rintro (h | h) ⟨hb, hpos⟩
      · exact h hb
      · rw [h] at hpos; exact lt_irrefl _ hpos
  refine ⟨fun hb => ⟨fun hsupp => ?_, fun hns => ?_⟩,
          fun hs => ⟨fun hsupp => ?_, fun hns => ?_⟩,
          fun hb hns hsucc hpos => ?_⟩
  · have hc : ¬(st.last_trade_type ≠ .BUY ∨ st.bot_managed_holding = 0) :=
      fun hcc => (hconv.mpr hcc) hsupp
    simp [primary_signal_phase, hb, hc]
  · have hcc := hconv.mp hns
    simp [primary_signal_phase, hb, hcc]
  · have hs' : fc < sc ∧ fp ≥ sp := hs
    have hnb : ¬primary_buy_signal fc sc fp sp :=
      fun hb' => absurd (hb' : fc > sc ∧ fp ≤ sp).1 (not_lt.mpr (le_of_lt hs'.1))
    have hc : ¬(st.bot_managed_holding > 0 ∧ st.last_trade_type ≠ .SELL) := by
      rcases hsupp with h | h
      · exact fun hcc => absurd hcc.1 (not_lt.mpr h)
      · exact fun hcc => hcc.2 h
    simp [primary_signal_phase, hnb, hs, hc]
  · push_neg at hns
    have hs' : fc < sc ∧ fp ≥ sp := hs
    have hnb : ¬primary_buy_signal fc sc fp sp :=
      fun hb' => absurd (hb' : fc > sc ∧ fp ≤ sp).1 (not_lt.mpr (le_of_lt hs'.1))
    simp [primary_signal_phase, hnb, hs, hns.1, hns.2]
  · have hcc := hconv.mp hns
    have hr : primary_signal_phase cfg fc sc fp sp ask bid st resp =
        (apply_buy_response st resp,
         [{ side := .buy, origin := .primary, amount := cfg.position_size_thb,
            rate := buy_order_rate cfg ask }]) := by
      simp [primary_signal_phase, hb, hcc]
    have hst1 : apply_buy_response st resp =
        { bot_managed_holding := st.bot_managed_holding + resp.recAmount,
          last_trade_type := .BUY } := by simp [apply_buy_response, hsucc]
    refine ⟨by simp [hr], ?_⟩
    intro fc2 sc2 fp2 sp2 ask2 bid2 resp2 hb2
    have hne : st.bot_managed_holding + resp.recAmount ≠ 0 := ne_of_gt hpos
    rw [hr, hst1]
    simp [primary_signal_phase, hb2, hne]

theorem C2_witness :
    0 ≤ (TradeState.mk 0 .SELL).bot_managed_holding
    ∧ (primary_signal_phase ⟨1000, 0, .market⟩ 11 10 9 10 100 99
         ⟨0, .SELL⟩ ⟨true, 5⟩).2 =
        [{ side := .buy, origin := .primary, amount := 1000, rate := none }] :=
  ⟨by norm_num,
   ((C2_trade_decision ⟨1000, 0, .market⟩ 11 10 9 10 100 99 ⟨0, .SELL⟩
       ⟨true, 5⟩ (by norm_num)).1
     (show (11 : ℚ) > 10 ∧ (9 : ℚ) ≤ 10 from ⟨by norm_num, by norm_num⟩)).2
     (by simp)⟩

/-- Claim C1, counterexample: with previous derived state `UNKNOWN` (the
very first decision cycle), no primary crossover firing (fast stays above
slow on both windows), holding `0` and last trade `'SELL'`, the cycle
nevertheless submits a BACKUP BUY attempt: the backup logic of
src/BitkubBot.py lines 792-826 tests the position state, not the previous
derived state. -/
theorem C1_counterexample :
    (MonitorState.mk ⟨0, .SELL⟩ .UNKNOWN).previous_derived_bot_state = .UNKNOWN
    ∧ ¬primary_buy_signal 2 1 2 1 ∧ ¬primary_sell_signal 2 1 2 1
    ∧ (cycle_step ⟨1000, 0, .market⟩ (some 2) (some 1) (some 2) (some 1)
         (some ⟨5, 4⟩) (fun _ => ⟨false, 0⟩) ⟨⟨0, .SELL⟩, .UNKNOWN⟩).2 =
        [{ side := .buy, origin := .backup, amount := 1000, rate := none }] := by
  refine ⟨rfl, ?_, ?_, ?_⟩
  · intro h
    have h' : (2 : ℚ) > 1 ∧ (2 : ℚ) ≤ 1 := h
    norm_num at h'
  · intro h
    have h' : (2 : ℚ) < 1 ∧ (2 : ℚ) ≥ 1 := h
    norm_num at h'
  · norm_num [cycle_step, primary_signal_phase, backup_signal_phase,
      derived_state_of, apply_buy_response, buy_order_rate,
      primary_buy_signal, primary_sell_signal]
    exact fun hx => nomatch hx

/-- Claim C1 as amended: the backup check is independent of the previous
derived state (it can fire on the very first cycle and in the same cycle
as a failed primary order); after the primary branch, a BACKUP BUY
attempt is made iff the derived state is HOLDING and
(`last_trade_type ≠ BUY` or the holding is `0`), and a BACKUP SELL
attempt iff the derived state is CASH, the holding is positive and
`last_trade_type ≠ SELL`. -/
theorem C1_amended_backup_rule (cfg : BotConfig) (derived : DerivedBotState)
    (ask bid : ℚ) (st : TradeState) (resp : OrderResponse) :
    ((backup_signal_phase cfg derived ask bid st resp).2 =
        [{ side := .buy, origin := .backup, amount := cfg.position_size_thb,
           rate := buy_order_rate cfg ask }]
      ↔ derived = .HOLDING ∧
          (st.last_trade_type ≠ .BUY ∨ st.bot_managed_holding = 0))
    ∧ ((backup_signal_phase cfg derived ask bid st resp).2 =
        [{ side := .sell, origin := .backup, amount := st.bot_managed_holding,
           rate := sell_order_rate cfg bid }]
      ↔ derived = .CASH ∧ 0 < st.bot_managed_holding ∧
          st.last_trade_type ≠ .SELL)
    ∧ (∀ (cfg2 : BotConfig) (a b c d : Option ℚ) (mko : Option MarketData)
         (resp2 : ℕ → OrderResponse) (ms ms' : MonitorState),
         ms.trade = ms'.trade →
         (cycle_step cfg2 a b c d mko resp2 ms).2 =
           (cycle_step cfg2 a b c d mko resp2 ms').2) := by
  refine ⟨?_, ?_, ?_⟩
  · unfold backup_signal_phase
    split_ifs with h1 h2 <;> simp [h1]
  · unfold backup_signal_phase
    split_ifs with h1 h2
    · simp [h1.1]
    · simp [h2]
    · simp [h2]
  · intro cfg2 a b c d mko resp2 ms ms' h
    rcases a with _ | fc <;> rcases b with _ | sc <;> rcases c with _ | fp <;>
      rcases d with _ | sp <;> rcases mko with _ | md <;>
      simp only [cycle_step, h]

theorem C1_witness :
    ((backup_signal_phase ⟨1000, 0, .market⟩ .HOLDING 100 99
        ⟨0, .SELL⟩ ⟨false, 0⟩).2 =
      [{ side := .buy, origin := .backup, amount := 1000, rate := none }])
    ∧ (cycle_step ⟨1000, 0, .market⟩ (some 2) (some 1) (some 2) (some 1)
         (some ⟨5, 4⟩) (fun _ => ⟨false, 0⟩) ⟨⟨0, .SELL⟩, .UNKNOWN⟩).2 =
        (cycle_step ⟨1000, 0, .market⟩ (some 2) (some 1) (some 2) (some 1)
         (some ⟨5, 4⟩) (fun _ => ⟨false, 0⟩) ⟨⟨0, .SELL⟩, .CASH⟩).2 :=
  ⟨((C1_amended_backup_rule ⟨1000, 0, .market⟩ .HOLDING 100 99 ⟨0, .SELL⟩
      ⟨false, 0⟩).1).mpr ⟨rfl, Or.inl (by simp)⟩,
   (C1_amended_backup_rule ⟨1000, 0, .market⟩ .HOLDING 100 99 ⟨0, .SELL⟩
      ⟨false, 0⟩).2.2 ⟨1000, 0, .market⟩ (some 2) (some 1) (some 2) (some 1)
      (some ⟨5, 4⟩) (fun _ => ⟨false, 0⟩) ⟨⟨0, .SELL⟩, .UNKNOWN⟩
      ⟨⟨0, .SELL⟩, .CASH⟩ rfl⟩

end BitkubBot
